import Mathlib

/-!
Verification development for a drone navigation simulator.

The development shallowly embeds the core of the simulator:
`NavigationSystem` (navigation.py), `Drone` and its per-tick state machine
(drone.py), `match_waypoint` of the vision system (vision_system.py) and
`latlon_to_screen` of the environment (environment.py).

Modelling conventions:
* Python floats are modelled as exact rationals (`ℚ`); the claims are about
  the formulas computed, not about floating-point rounding.
* `time.time()` is modelled by an explicit `now : ℚ` argument threaded into
  `Drone.update`; `dt` is the separate frame delta, exactly as in the source.
* The geodesic primitives of geopy (`geodesic(...).destination`,
  `geodesic(...).meters`) and the trigonometric `calculate_bearing` are
  modelled as an abstract `Geo` record of functions; every theorem holds for
  an arbitrary `Geo`, and witnesses instantiate it concretely.
* Fallible Python operations (indexing a list out of range, comparing `None`
  with a number, unpacking fewer than two k-NN matches) are modelled with
  `Except String`.
-/

/-- Abstract geodesy primitives used by the source (geopy and
`calculate_bearing`): `dest meters bearing (lat, lon)` is
`geodesic(meters=meters).destination(Point(lat, lon), bearing)`,
`gdist p q` is `geodesic(p, q).meters`, and `bear lat1 lon1 lat2 lon2` is
`calculate_bearing(lat1, lon1, lat2, lon2)`. -/
structure Geo where
  dest : ℚ → ℚ → ℚ × ℚ → ℚ × ℚ
  gdist : ℚ × ℚ → ℚ × ℚ → ℚ
  bear : ℚ → ℚ → ℚ → ℚ → ℚ

/-- A route waypoint: `{'name': ..., 'lat': ..., 'lon': ...}`. -/
structure Waypoint where
  name : String
  lat : ℚ
  lon : ℚ
deriving DecidableEq, Repr

/-- Python list indexing `xs[i]`: non-negative indices are positional,
negative indices count from the end, and anything outside `[-len, len)`
raises `IndexError` (modelled as `none`). -/
def pyGet (xs : List α) (i : ℤ) : Option α :=
  if 0 ≤ i then xs.get? i.toNat
  else if 0 ≤ (xs.length : ℤ) + i then xs.get? ((xs.length : ℤ) + i).toNat
  else none

/-- State of `NavigationSystem` (navigation.py). -/
structure NavigationSystem where
  waypoints : List Waypoint
  current_waypoint_idx : ℤ
  reached_destination : Bool
  waypoint_threshold : ℚ
  distance_to_wp : Option ℚ
  bearing_to_wp : Option ℚ
deriving DecidableEq, Repr

/-- `NavigationSystem.__init__(waypoints)`: the index starts at 1 and the
route counts as already reached unless it has more than one waypoint. -/
def mkNavigationSystem (waypoints : List Waypoint) : NavigationSystem :=
  { waypoints := waypoints
    current_waypoint_idx := 1
    reached_destination := !decide (1 < waypoints.length)
    waypoint_threshold := 5
    distance_to_wp := none
    bearing_to_wp := none }

/-- `NavigationSystem.update(current_lat, current_lon)`: if the destination
is reached or the route is empty, clears distance and bearing; otherwise
recomputes both against `waypoints[current_waypoint_idx]` (which raises
`IndexError` when the index is outside the Python-indexable range). -/
def NavigationSystem.update (geo : Geo) (current_lat current_lon : ℚ)
    (n : NavigationSystem) : Except String NavigationSystem :=
  if n.reached_destination || n.waypoints.isEmpty then
    .ok { n with distance_to_wp := none, bearing_to_wp := none }
  else
    match pyGet n.waypoints n.current_waypoint_idx with
    | none => .error "IndexError"
    | some target_wp =>
        .ok { n with
                distance_to_wp :=
                  some (geo.gdist (current_lat, current_lon) (target_wp.lat, target_wp.lon))
                bearing_to_wp :=
                  some (geo.bear current_lat current_lon target_wp.lat target_wp.lon) }

/-- `NavigationSystem.advance_waypoint()`: when not yet reached, increments
the index and marks the route completed if the new index is past the end;
when already reached, merely reasserts `reached_destination`. -/
def NavigationSystem.advance_waypoint (n : NavigationSystem) : NavigationSystem :=
  if !n.reached_destination then
    let idx := n.current_waypoint_idx + 1
    if (n.waypoints.length : ℤ) ≤ idx then
      { n with current_waypoint_idx := idx, reached_destination := true }
    else
      { n with current_waypoint_idx := idx }
  else
    { n with reached_destination := true }

/-- `NavigationSystem.set_new_route(new_waypoints)`. -/
def NavigationSystem.set_new_route (new_waypoints : List Waypoint)
    (n : NavigationSystem) : NavigationSystem :=
  { n with waypoints := new_waypoints, current_waypoint_idx := 0,
           reached_destination := false }

/-- `NavigationSystem.is_final_waypoint()`. -/
def NavigationSystem.is_final_waypoint (n : NavigationSystem) : Bool :=
  n.current_waypoint_idx = (n.waypoints.length : ℤ) - 1

/-- The discrete flight states (drone.py, `DroneState`). -/
inductive DroneState where
  | IDLE
  | TAKING_OFF
  | NAVIGATING
  | HOVERING
  | SEARCHING
  | MATCH_FOUND
  | RETURN_HOME
  | LANDING
  | LANDED
deriving DecidableEq, Repr

/-- State of `Drone` (drone.py). The Python `altitude` property is the `z`
field. `search_radius` is not assigned in the Python `__init__`; it is first
assigned on the initial SEARCHING tick before any read, so the `0` here is
an inert placeholder that no reachable read observes. -/
structure Drone where
  start_pos_lat_lon : ℚ × ℚ
  lat : ℚ
  lon : ℚ
  z : ℚ
  cruise_altitude : ℚ
  velocity : ℚ
  search_velocity : ℚ
  ascent_speed : ℚ
  descent_speed : ℚ
  landing_altitude : ℚ
  heading : ℚ
  battery : ℚ
  battery_drain_rate : ℚ
  state : DroneState
  hover_start_time : Option ℚ
  match_found_time : Option ℚ
  search_start_time : ℚ
  max_search_radius : ℚ
  search_angle : ℚ
  search_center_lat : ℚ
  search_center_lon : ℚ
  total_search_time : ℚ
  search_radius : ℚ

/-- `Drone.__init__(start_pos_lat_lon, start_alt)`. -/
def mkDrone (start_pos_lat_lon : ℚ × ℚ) (start_alt : ℚ) : Drone :=
  { start_pos_lat_lon := start_pos_lat_lon
    lat := start_pos_lat_lon.1
    lon := start_pos_lat_lon.2
    z := 0
    cruise_altitude := start_alt
    velocity := 15
    search_velocity := 5
    ascent_speed := 5
    descent_speed := 3/2
    landing_altitude := 10
    heading := 0
    battery := 100
    battery_drain_rate := 1/100
    state := .TAKING_OFF
    hover_start_time := none
    match_found_time := none
    search_start_time := 0
    max_search_radius := 20
    search_angle := 0
    search_center_lat := 0
    search_center_lon := 0
    total_search_time := 0
    search_radius := 0 }

/-- `Drone.initiate_landing()`. -/
def Drone.initiate_landing (d : Drone) : Drone :=
  if d.state ≠ .LANDING then { d with state := .LANDING } else d

/-- `Drone.confirm_match()` (stamps the wall clock `now`). -/
def Drone.confirm_match (now : ℚ) (d : Drone) : Drone :=
  { d with state := .MATCH_FOUND, match_found_time := some now,
           search_start_time := 0, total_search_time := 0 }

/-- The trailing physics and battery lines of `Drone.update` (drone.py
lines 206-208): clamp altitude at 0 and drain the battery, floored at 0. -/
def finishTick (dt : ℚ) (d : Drone) : Drone :=
  { d with z := max 0 d.z,
           battery := max 0 (d.battery - d.battery_drain_rate * dt) }

/-- `Drone.update(dt, nav_system)` (drone.py lines 72-208), with the wall
clock `time.time()` passed as `now` and geodesy abstracted as `geo`.
Returns the updated drone and navigation system, or the Python exception a
tick would raise (`None` comparisons, as the source lines would). -/
def Drone.update (geo : Geo) (dt now : ℚ) (nav : NavigationSystem)
    (d : Drone) : Except String (Drone × NavigationSystem) :=
  match d.state with
  | .LANDED => .ok (d, nav)
  | .TAKING_OFF =>
      let z1 := d.z + d.ascent_speed * dt
      let d1 :=
        if d.cruise_altitude ≤ z1 then
          { d with z := d.cruise_altitude, state := .NAVIGATING }
        else { d with z := z1 }
      .ok (finishTick dt d1, nav)
  | .NAVIGATING =>
      if nav.reached_destination then .ok (finishTick dt d, nav)
      else
        let h := match nav.bearing_to_wp with
                 | some b => b
                 | none => d.heading
        match nav.distance_to_wp with
        | none => .error "TypeError: NoneType comparison"
        | some distance_to_wp =>
            let braking_distance : ℚ := 30
            let current_velocity :=
              if distance_to_wp < braking_distance then
                3 + (d.velocity - 3) * max 0 (distance_to_wp / braking_distance)
              else d.velocity
            let distance_moved := min (current_velocity * dt) distance_to_wp
            let pos' :=
              if 0 < distance_moved then geo.dest distance_moved h (d.lat, d.lon)
              else (d.lat, d.lon)
            let st :=
              if distance_to_wp < nav.waypoint_threshold then DroneState.HOVERING
              else DroneState.NAVIGATING
            .ok (finishTick dt
                  { d with heading := h, lat := pos'.1, lon := pos'.2, state := st }, nav)
  | .HOVERING =>
      match d.hover_start_time with
      | none => .error "TypeError: NoneType comparison"
      | some _ => .ok (finishTick dt d, nav)
  | .SEARCHING =>
      let total := d.total_search_time + dt
      -- On the first search tick (`search_start_time == 0`) the source
      -- initialises the timer, radius, angle and center together.
      let start := if d.search_start_time = 0 then now else d.search_start_time
      let radius := if d.search_start_time = 0 then (5 : ℚ) else d.search_radius
      let angle := if d.search_start_time = 0 then (0 : ℚ) else d.search_angle
      let cLat := if d.search_start_time = 0 then d.lat else d.search_center_lat
      let cLon := if d.search_start_time = 0 then d.lon else d.search_center_lon
      let time_in_search := now - start
      let radius' := if radius < d.max_search_radius then radius + 1 * dt else radius
      let angle' := angle + 60 * dt
      let target := geo.dest radius' angle' (cLat, cLon)
      let h := geo.bear d.lat d.lon target.1 target.2
      let pos' := geo.dest (d.search_velocity * dt) h (d.lat, d.lon)
      let d1 := { d with total_search_time := total, search_start_time := start,
                         search_radius := radius', search_angle := angle',
                         search_center_lat := cLat, search_center_lon := cLon,
                         heading := h, lat := pos'.1, lon := pos'.2 }
      if 5 < time_in_search then
        -- Early return: skips the trailing physics and battery lines.
        .ok ({ d1 with state := .HOVERING, hover_start_time := some now,
                       search_start_time := 0 }, nav)
      else if 30 < total then
        let home_waypoint : Waypoint :=
          { name := "Home", lat := d.start_pos_lat_lon.1, lon := d.start_pos_lat_lon.2 }
        .ok (finishTick dt { d1 with state := .RETURN_HOME, total_search_time := 0 },
             nav.set_new_route [home_waypoint])
      else
        .ok (finishTick dt d1, nav)
  | .MATCH_FOUND =>
      match d.match_found_time with
      | none => .error "TypeError: NoneType comparison"
      | some mft =>
          if 1 < now - mft then
            if nav.is_final_waypoint then
              .ok (finishTick dt d.initiate_landing, nav)
            else
              .ok (finishTick dt { d with state := .NAVIGATING }, nav.advance_waypoint)
          else .ok (finishTick dt d, nav)
  | .RETURN_HOME =>
      if nav.reached_destination then .ok (finishTick dt d.initiate_landing, nav)
      else
        let h := match nav.bearing_to_wp with
                 | some b => b
                 | none => d.heading
        let distance_this_frame := d.velocity * dt
        let distance_moved :=
          match nav.distance_to_wp with
          | some distance_to_wp => min distance_this_frame distance_to_wp
          | none => distance_this_frame
        let pos' :=
          if 0 < distance_moved then geo.dest distance_moved h (d.lat, d.lon)
          else (d.lat, d.lon)
        .ok (finishTick dt { d with heading := h, lat := pos'.1, lon := pos'.2 }, nav)
  | .LANDING =>
      let z1 := d.z - d.descent_speed * dt
      let d1 :=
        if z1 ≤ 1/10 then { d with z := 0, state := .LANDED, velocity := 0 }
        else { d with z := z1 }
      .ok (finishTick dt d1, nav)
  | .IDLE =>
      -- No state branch matches IDLE; only the physics and battery lines run.
      .ok (finishTick dt d, nav)

/-- One cached entry of `VisionSystem.waypoint_features` (vision_system.py):
the keypoint count (`len(kp)` is all the matcher reads of `kp`) and the
descriptors, `none` when `detectAndCompute` found none. Descriptors are an
abstract type `D`; the ORB descriptor distance is a parameter `dist`. -/
structure RefFeatures (D : Type) where
  kp : ℕ
  des : Option (List D)
deriving DecidableEq, Repr

/-- The two smallest values of `a :: b :: t`, in order: the exact best and
second-best neighbour distances that `knnMatch(..., k=2)` yields (the source
matcher is approximate; the spec directs modelling it as exact 2-NN). -/
def best2core (a b : ℚ) (t : List ℚ) : ℚ × ℚ :=
  t.foldl
    (fun p x =>
      if x < p.1 then (x, p.1)
      else if x < p.2 then (p.1, x)
      else p)
    (if a ≤ b then (a, b) else (b, a))

/-- Best and second-best of a list, `none` when it has fewer than two
elements (then `for m, n in matches` would fail to unpack in the source). -/
def best2 (l : List ℚ) : Option (ℚ × ℚ) :=
  match l with
  | a :: b :: t => some (best2core a b t)
  | _ => none

/-- The `k=2` nearest-neighbour distances of one reference descriptor `t`
among the live descriptors `cdes`. -/
def knn2 (dist : D → D → ℚ) (cdes : List D) (t : D) : Except String (ℚ × ℚ) :=
  match best2 (cdes.map (dist t)) with
  | some p => .ok p
  | none => .error "ValueError: not enough values to unpack"

/-- `matcher.knnMatch(des_target, des_camera, k=2)` followed by the unpacking
loop header: one (best, second-best) distance pair per reference descriptor. -/
def knnMatchAll (dist : D → D → ℚ) (cdes : List D) :
    List D → Except String (List (ℚ × ℚ))
  | [] => .ok []
  | t :: ts =>
      (knn2 dist cdes t).bind fun p =>
        (knnMatchAll dist cdes ts).map fun ps => p :: ps

/-- Number of reference descriptors whose best match is strictly closer than
`0.7` times their second-best match (Lowe's ratio test) among the live
descriptors — the "good matches" count. -/
def ratioPassCount (dist : D → D → ℚ) (cdes tdes : List D) : ℕ :=
  (tdes.filter fun t =>
    match best2 (cdes.map (dist t)) with
    | some p => decide (p.1 < 7/10 * p.2)
    | none => false).length

/-- `VisionSystem.match_waypoint(camera_np, waypoint_index)` (vision_system.py
lines 30-78), with live-image feature extraction abstracted into the input
`camera_des` (the `des` of `orb.detectAndCompute` on the live frame).
Returns `(match_successful, confidence)`; the visualization surface is a
diagnostic artifact and is not modelled. -/
def match_waypoint (dist : D → D → ℚ) (waypoint_features : List (RefFeatures D))
    (camera_des : Option (List D)) (waypoint_index : ℤ) :
    Except String (Bool × ℚ) :=
  if (waypoint_features.length : ℤ) ≤ waypoint_index then .ok (false, 0)
  else
    match pyGet waypoint_features waypoint_index with
    | none => .error "IndexError"
    | some target_features =>
        match target_features.des with
        | none => .ok (false, 0)
        | some des_target =>
            match camera_des with
            | none => .ok (false, 0)
            | some des_camera =>
                (knnMatchAll dist des_camera des_target).map fun knnPairs =>
                  let good_matches := knnPairs.filter fun p => decide (p.1 < 7/10 * p.2)
                  let num_good_matches := good_matches.length
                  let total_target_kp := target_features.kp
                  let confidence : ℚ :=
                    if 0 < total_target_kp then (num_good_matches : ℚ) / 100 else 0
                  (decide ((1/4 : ℚ) ≤ confidence), confidence)

/-- Python `int(...)` on a rational: truncation toward zero. -/
def pyInt (q : ℚ) : ℤ := if 0 ≤ q then ⌊q⌋ else -⌊-q⌋

/-- `Environment.latlon_to_screen(lat, lon)` (environment.py lines 94-115):
`bbox` is `(min_lon, min_lat, max_lon, max_lat)` from the map metadata and
`(map_width, map_height)` the pixel size of the map surface. -/
def latlon_to_screen (bbox : ℚ × ℚ × ℚ × ℚ) (map_width map_height : ℕ)
    (lat lon : ℚ) : ℤ × ℤ :=
  let min_lon := bbox.1
  let max_lon := bbox.2.2.1
  let max_lat := bbox.2.2.2
  let min_lat := bbox.2.1
  let lon_range := max_lon - min_lon
  let lat_range := max_lat - min_lat
  if lon_range = 0 ∨ lat_range = 0 then
    ((map_width / 2 : ℕ), (map_height / 2 : ℕ))
  else
    (pyInt ((lon - min_lon) / lon_range * map_width),
     pyInt ((max_lat - lat) / lat_range * map_height))

/-- Fold a list of `(dt, now)` frames through `Drone.update`, stopping at the
first raised exception, as consecutive iterations of the main loop would. -/
def runTicks (geo : Geo) :
    List (ℚ × ℚ) → NavigationSystem → Drone → Except String (Drone × NavigationSystem)
  | [], nav, d => .ok (d, nav)
  | t :: ts, nav, d =>
      (Drone.update geo t.1 t.2 nav d).bind fun p => runTicks geo ts p.2 p.1

/-- A concrete flat-plane geodesy for witnesses: moving `m` meters at any
bearing adds `m` to the latitude coordinate, distance is taxicab. -/
def geoFlat : Geo :=
  { dest := fun m _ p => (p.1 + m, p.2)
    gdist := fun p q => |q.1 - p.1| + |q.2 - p.2|
    bear := fun _ _ _ _ => 0 }

/-- Concrete route start for witnesses. -/
def wpStart : Waypoint := { name := "Start", lat := 10, lon := 20 }

/-- Concrete destination waypoint for witnesses. -/
def wpDest : Waypoint := { name := "WP1", lat := 30, lon := 40 }

/-- The home-only waypoint installed by the failsafe abort. -/
def wpHome : Waypoint := { name := "Home", lat := 10, lon := 20 }

/-- The navigator right after the failsafe abort installs the home route. -/
def navHomeRoute : NavigationSystem :=
  (mkNavigationSystem [wpStart, wpDest]).set_new_route [wpHome]

/-- The home-route navigator with `reached_destination` forced true. -/
def navHomeReached : NavigationSystem :=
  { navHomeRoute with reached_destination := true }

/-- A navigator mid-route with a live distance and bearing to its target. -/
def navLive : NavigationSystem :=
  { waypoints := [wpStart, wpDest]
    current_waypoint_idx := 1
    reached_destination := false
    waypoint_threshold := 5
    distance_to_wp := some 15
    bearing_to_wp := some 90 }

/-- A freshly constructed drone returning home. -/
def droneRH : Drone := { mkDrone (10, 20) 10 with state := .RETURN_HOME }

/-- A freshly constructed drone navigating. -/
def droneNavg : Drone := { mkDrone (10, 20) 10 with state := .NAVIGATING }

/-- The drone right after the orchestration loop flips a failed hover into
SEARCHING (only the `state` field is written; the search accumulators still
hold their reset values). -/
def droneSearch0 : Drone := { mkDrone (10, 20) 10 with state := .SEARCHING }

/-- A drone mid-search-segment about to trip the 30 s failsafe: the current
segment began at wall time 32 and 30 s of search time have accumulated. -/
def droneFailsafe : Drone :=
  { mkDrone (10, 20) 10 with
      state := .SEARCHING, search_start_time := 32, total_search_time := 30,
      search_radius := 5 }

/-- Frames for the spiral-angle counterexample: nine SEARCHING ticks of
0.7 s starting at wall time 1 (the ninth completes the 5 s segment). -/
def ticksSpiral : List (ℚ × ℚ) :=
  [(7/10, 1), (7/10, 17/10), (7/10, 24/10), (7/10, 31/10), (7/10, 38/10),
   (7/10, 45/10), (7/10, 52/10), (7/10, 59/10), (7/10, 66/10)]

/-- Twelve SEARCHING ticks of 0.5 s starting at wall time 1; the twelfth
(at wall time 6.5) completes the 5 s segment. -/
def ticksSegment : List (ℚ × ℚ) :=
  [(1/2, 1), (1/2, 3/2), (1/2, 2), (1/2, 5/2), (1/2, 3), (1/2, 7/2),
   (1/2, 4), (1/2, 9/2), (1/2, 5), (1/2, 11/2), (1/2, 6), (1/2, 13/2)]

/-- The first eleven frames of `ticksSegment`. -/
def ticksSegmentPre : List (ℚ × ℚ) :=
  [(1/2, 1), (1/2, 3/2), (1/2, 2), (1/2, 5/2), (1/2, 3), (1/2, 7/2),
   (1/2, 4), (1/2, 9/2), (1/2, 5), (1/2, 11/2), (1/2, 6)]

/-- Absolute difference as a concrete descriptor distance for witnesses. -/
def distAbs (a b : ℚ) : ℚ := |a - b|

/-- A one-entry reference cache whose snapshot has two descriptors. -/
def refCacheOne : List (RefFeatures ℚ) := [{ kp := 3, des := some [0, 10] }]

/-- A one-entry reference cache whose snapshot yielded no descriptors. -/
def refCacheNoDes : List (RefFeatures ℚ) := [{ kp := 0, des := none }]

/-- Concrete live-image descriptors for witnesses. -/
def liveDes : List ℚ := [1/10, 5, 100]

/-- The motion law in the spec's words, for comparison with `Drone.update`:
the speed is the braking interpolation when NAVIGATING (floor 3 at distance
0, cruise at and above 30 m) and the raw cruise velocity otherwise; the
drone advances by speed·dt capped at the remaining distance, staying put
when the capped move is not positive. -/
def movedPos (geo : Geo) (d : Drone) (b dist dt : ℚ) : ℚ × ℚ :=
  let cv := if d.state = .NAVIGATING then
              (if dist < 30 then 3 + (d.velocity - 3) * (dist / 30) else d.velocity)
            else d.velocity
  let moved := min (cv * dt) dist
  if 0 < moved then geo.dest moved b (d.lat, d.lon) else (d.lat, d.lon)

/-- Drone states reachable in a mission: the freshly constructed drone,
closed under successful update ticks (any geodesy, frame time, wall clock
and navigator), match confirmation, and landing initiation — the operations
the orchestration loop invokes. -/
inductive ReachableDrone : Drone → Prop
  | init (pos : ℚ × ℚ) (alt : ℚ) : ReachableDrone (mkDrone pos alt)
  | step (geo : Geo) (dt now : ℚ) (nav : NavigationSystem) {d d' : Drone}
      {n' : NavigationSystem} : ReachableDrone d →
      Drone.update geo dt now nav d = .ok (d', n') → ReachableDrone d'
  | confirm (now : ℚ) {d : Drone} : ReachableDrone d →
      ReachableDrone (d.confirm_match now)
  | land {d : Drone} : ReachableDrone d → ReachableDrone d.initiate_landing


/-- C1: evaluation of the code at the failing input. After the failsafe
abort installs the one-waypoint home route, an update made exactly at the
home position (distance 0, within the 5 m threshold) leaves
`reached_destination` false: `NavigationSystem.update` only recomputes
distance and bearing and never sets `reached_destination`, so the first
half of the claim fails on the code. The second half does hold: a
RETURN_HOME drone whose navigator has `reached_destination` true initiates
landing on its next tick (third conjunct). -/
theorem c1_home_route_update_never_reaches :
    (navHomeRoute.update geoFlat 10 20).map
        (fun n => (n.reached_destination, n.distance_to_wp)) = .ok (false, some 0) ∧
    (0 : ℚ) < navHomeRoute.waypoint_threshold ∧
    (Drone.update geoFlat (1/10) 50 navHomeReached droneRH).map
        (fun p => p.1.state) = .ok .LANDING := by
  refine ⟨?_, ?_, ?_⟩
  · norm_num [NavigationSystem.update, navHomeRoute, NavigationSystem.set_new_route,
      mkNavigationSystem, wpStart, wpDest, wpHome, pyGet, geoFlat, Except.map]
  · norm_num [navHomeRoute, NavigationSystem.set_new_route, mkNavigationSystem]
  · norm_num [Drone.update, navHomeReached, navHomeRoute, NavigationSystem.set_new_route,
      mkNavigationSystem, droneRH, mkDrone, Drone.initiate_landing, finishTick, Except.map]
    decide

/-- C2 counterexample: with identical navigator inputs (bearing 90°,
distance 15 m) and a 0.1 s tick, a NAVIGATING drone moves the braked
min((3 + (15 − 3)·(15/30))·0.1, 15) = 0.9 m (latitude 10 → 10.9), but a
RETURN_HOME drone moves the unbraked min(15·0.1, 15) = 1.5 m (latitude
10 → 11.5): the braking policy is not applied in RETURN_HOME, refuting the
claim as stated. -/
theorem c2_return_home_not_braked :
    (Drone.update geoFlat (1/10) 0 navLive droneNavg).map (fun p => p.1.lat) =
      .ok (109/10) ∧
    (Drone.update geoFlat (1/10) 0 navLive droneRH).map (fun p => p.1.lat) =
      .ok (23/2) ∧
    min ((3 + (droneRH.velocity - 3) * (15 / 30)) * (1/10)) 15 = (9/10 : ℚ) ∧
    geoFlat.dest (9/10) 90 (droneRH.lat, droneRH.lon) = (109/10, 20) ∧
    (23/2 : ℚ) ≠ 109/10 := by
  refine ⟨?_, ?_, ?_, ?_, ?_⟩
  · norm_num [Drone.update, navLive, droneNavg, mkDrone, geoFlat, finishTick, Except.map]
  · norm_num [Drone.update, navLive, droneRH, mkDrone, geoFlat, finishTick, Except.map]
  · norm_num [droneRH, mkDrone]
  · norm_num [geoFlat, droneRH, mkDrone]
  · norm_num

/-- C3 counterexample: nine consecutive SEARCHING ticks of 0.7 s (wall clock
advancing accordingly) leave the stored spiral angle at 9·60·0.7 = 378°,
which is not reduced modulo 360°, refuting the claim as stated. -/
theorem c3_angle_not_reduced :
    (runTicks geoFlat ticksSpiral navLive droneSearch0).map
        (fun p => (p.1.search_angle, p.1.state)) = .ok (378, .HOVERING) ∧
    ¬((378 : ℚ) < 360) := by
  constructor
  · norm_num [runTicks, ticksSpiral, Drone.update, droneSearch0, mkDrone, navLive,
      geoFlat, finishTick, Except.map, Except.bind]
  · norm_num

/-- C4 counterexample: a failsafe tick (segment began at wall time 32, now
36, accumulated search time 30 + 1 > 30) transitions to RETURN_HOME and
zeroes the total accumulator, but `search_start_time` stays 32 — the
segment timer is not reset, refuting the claim as stated. -/
theorem c4_segment_timer_not_reset :
    (Drone.update geoFlat 1 36 navLive droneFailsafe).map
        (fun p => (p.1.state, p.1.total_search_time, p.1.search_start_time)) =
      .ok (.RETURN_HOME, 0, 32) ∧ (32 : ℚ) ≠ 0 := by
  constructor
  · norm_num [Drone.update, droneFailsafe, mkDrone, navLive, geoFlat, finishTick,
      NavigationSystem.set_new_route, Except.map]
  · norm_num

/-- C5 counterexample: with one cached reference, `waypoint_index = -1`
wraps to that reference per Python indexing and produces a computed
confidence 1/50 ≠ 0 (not the forced no-match), and `waypoint_index = -2`
raises IndexError instead of returning any result — refuting the claim
that every negative index yields success false and confidence 0 without
raising. -/
theorem c5_negative_index_not_no_match :
    match_waypoint distAbs refCacheOne (some liveDes) (-1) = .ok (false, 1/50) ∧
    (1/50 : ℚ) ≠ 0 ∧
    match_waypoint distAbs refCacheOne (some liveDes) (-2) = .error "IndexError" := by
  refine ⟨?_, by norm_num, ?_⟩
  · norm_num [match_waypoint, refCacheOne, liveDes, pyGet, knnMatchAll, knn2, best2,
      best2core, distAbs, Except.map, Except.bind, List.filter, abs]
  · norm_num [match_waypoint, refCacheOne, pyGet]

/-- C6 counterexample: eleven SEARCHING ticks of 0.5 s drain the battery to
99.945; the twelfth tick completes the 5 s segment and returns early to
HOVERING, leaving the battery at 99.945 although the drone is not LANDED —
that tick does not drain drain-rate·dt, refuting the claim as stated. -/
theorem c6_segment_tick_skips_drain :
    (runTicks geoFlat ticksSegmentPre navLive droneSearch0).map
        (fun p => (p.1.battery, p.1.state)) = .ok (19989/200, .SEARCHING) ∧
    (runTicks geoFlat ticksSegment navLive droneSearch0).map
        (fun p => (p.1.battery, p.1.state)) = .ok (19989/200, .HOVERING) ∧
    (19989/200 : ℚ) ≠ max 0 (19989/200 - (1/100) * (1/2)) := by
  refine ⟨?_, ?_, ?_⟩
  · norm_num [runTicks, ticksSegmentPre, Drone.update, droneSearch0, mkDrone, navLive,
      geoFlat, finishTick, Except.map, Except.bind]
  · norm_num [runTicks, ticksSegment, Drone.update, droneSearch0, mkDrone, navLive,
      geoFlat, finishTick, Except.map, Except.bind]
  · rw [max_eq_right (by norm_num)]
    norm_num

/-- C8: `advance_waypoint` is idempotent once the destination is reached —
`reached_destination` stays true and the current waypoint index is
untouched — and when not yet reached, an increment that passes the last
valid index marks the route completed instead of faulting. -/
theorem c8_advance_waypoint_idempotent (n : NavigationSystem) :
    (n.reached_destination = true →
      n.advance_waypoint.reached_destination = true ∧
      n.advance_waypoint.current_waypoint_idx = n.current_waypoint_idx) ∧
    (n.reached_destination = false →
      (n.waypoints.length : ℤ) ≤ n.current_waypoint_idx + 1 →
      n.advance_waypoint.reached_destination = true) := by
  constructor
  · intro h
    simp [NavigationSystem.advance_waypoint, h]
  · intro h hlen
    simp [NavigationSystem.advance_waypoint, h, hlen]

/-- C8 witness: concrete instances of both halves. -/
theorem c8_advance_waypoint_idempotent_witness :
    (navHomeReached.advance_waypoint.reached_destination = true ∧
     navHomeReached.advance_waypoint.current_waypoint_idx =
       navHomeReached.current_waypoint_idx) ∧
    navLive.advance_waypoint.reached_destination = true :=
  ⟨(c8_advance_waypoint_idempotent navHomeReached).1 rfl,
   (c8_advance_waypoint_idempotent navLive).2 rfl (by norm_num [navLive])⟩

/-- C9: a degenerate bounding box (zero longitude range or zero latitude
range) makes `latlon_to_screen` return the map center instead of dividing;
a non-degenerate box yields the linear interpolation of the point into
pixel coordinates, truncated to integers (latitude inverted). -/
theorem c9_latlon_to_screen_cases (bbox : ℚ × ℚ × ℚ × ℚ) (w h : ℕ)
    (lat lon : ℚ) :
    (bbox.2.2.1 - bbox.1 = 0 ∨ bbox.2.2.2 - bbox.2.1 = 0 →
      latlon_to_screen bbox w h lat lon = (((w / 2 : ℕ) : ℤ), ((h / 2 : ℕ) : ℤ))) ∧
    (bbox.2.2.1 - bbox.1 ≠ 0 → bbox.2.2.2 - bbox.2.1 ≠ 0 →
      latlon_to_screen bbox w h lat lon =
        (pyInt ((lon - bbox.1) / (bbox.2.2.1 - bbox.1) * w),
         pyInt ((bbox.2.2.2 - lat) / (bbox.2.2.2 - bbox.2.1) * h))) := by
  constructor
  · intro h0
    simp only [latlon_to_screen]
    rw [if_pos h0]
  · intro h1 h2
    simp only [latlon_to_screen]
    rw [if_neg]
    push_neg
    exact ⟨h1, h2⟩

/-- C9 witness: the degenerate box falls back to the map center (5, 4); the
box (0, 0) – (2, 1) on a 100×50 map sends (lat 1/4, lon 1/2) to (25, 37),
the interpolation (25, 37.5) truncated to pixels. -/
theorem c9_latlon_to_screen_cases_witness :
    latlon_to_screen (0, 0, 0, 1) 10 8 0 0 = (5, 4) ∧
    latlon_to_screen (0, 0, 2, 1) 100 50 (1/4) (1/2) = (25, 37) :=
  ⟨((c9_latlon_to_screen_cases (0, 0, 0, 1) 10 8 0 0).1
      (Or.inl (by norm_num))).trans (by norm_num),
   ((c9_latlon_to_screen_cases (0, 0, 2, 1) 100 50 (1/4) (1/2)).2
      (by norm_num) (by norm_num)).trans (by norm_num [pyInt])⟩

/-- Monotonicity and bound of one spiral-radius step: the radius grows by dt
only while strictly below the maximum, so it never decreases and never
passes max(previous radius, maximum + dt). -/
theorem radius_step_mono (r m dt : ℚ) (hdt : 0 ≤ dt) :
    r ≤ (if r < m then r + dt else r) ∧
    (if r < m then r + dt else r) ≤ max r (m + dt) := by
  split
  · exact ⟨le_add_of_nonneg_right hdt, le_max_of_le_right (by linarith)⟩
  · exact ⟨le_refl r, le_max_left r _⟩

/-- C2 amended: in NAVIGATING and RETURN_HOME alike, the tick sets the
heading to the navigator's bearing and moves by speed·dt capped at the
remaining distance, but the braking interpolation
3 + (cruise − 3)·(distance/30) below 30 m applies only in NAVIGATING; in
RETURN_HOME the raw cruise velocity is used at every distance
(`movedPos` spells out exactly this asymmetric motion law). -/
theorem c2_motion_law (geo : Geo) (nav : NavigationSystem) (d : Drone)
    (dt now b dist : ℚ)
    (hst : d.state = .NAVIGATING ∨ d.state = .RETURN_HOME)
    (hr : nav.reached_destination = false)
    (hb : nav.bearing_to_wp = some b)
    (hd : nav.distance_to_wp = some dist)
    (hd0 : 0 ≤ dist) :
    (Drone.update geo dt now nav d).map
        (fun p => (p.1.heading, (p.1.lat, p.1.lon))) =
      .ok (b, movedPos geo d b dist dt) := by
  have hmax : max 0 (dist / 30) = dist / 30 := max_eq_right (by positivity)
  rcases hst with hs | hs <;>
    simp [Drone.update, movedPos, hs, hr, hb, hd, hmax, Except.map, finishTick,
      Prod.mk.eta]

/-- C2 amended witness: both halves at the concrete navigator (bearing 90°,
distance 15 m) with a 0.1 s tick. -/
theorem c2_motion_law_witness :
    (Drone.update geoFlat (1/10) 0 navLive droneNavg).map
        (fun p => (p.1.heading, (p.1.lat, p.1.lon))) =
      .ok (90, movedPos geoFlat droneNavg 90 15 (1/10)) ∧
    (Drone.update geoFlat (1/10) 0 navLive droneRH).map
        (fun p => (p.1.heading, (p.1.lat, p.1.lon))) =
      .ok (90, movedPos geoFlat droneRH 90 15 (1/10)) :=
  ⟨c2_motion_law geoFlat navLive droneNavg (1/10) 0 90 15 (Or.inl rfl) rfl rfl rfl
      (by norm_num),
   c2_motion_law geoFlat navLive droneRH (1/10) 0 90 15 (Or.inr rfl) rfl rfl rfl
      (by norm_num)⟩

/-- C3 amended: on a SEARCHING tick of an ongoing segment with dt ≥ 0 the
spiral radius never decreases and stays at or below
max(previous radius, maximum + dt) — it grows only while strictly below the
maximum, so it can overshoot it by at most dt on the crossing tick — while
the stored spiral angle advances by exactly 60·dt with no modulo-360
reduction. -/
theorem c3_spiral_step (geo : Geo) (nav : NavigationSystem) (d : Drone)
    (dt now : ℚ) (hst : d.state = .SEARCHING) (hseg : d.search_start_time ≠ 0)
    (hdt : 0 ≤ dt) :
    (Drone.update geo dt now nav d).map (fun p =>
      decide (d.search_radius ≤ p.1.search_radius) &&
      decide (p.1.search_radius ≤
        max d.search_radius (d.max_search_radius + dt)) &&
      decide (p.1.search_angle = d.search_angle + 60 * dt)) = .ok true := by
  obtain ⟨h1, h2⟩ :=
    radius_step_mono d.search_radius d.max_search_radius dt hdt
  simp only [Drone.update, hst, if_neg hseg]
  rcases lt_or_le 5 (now - d.search_start_time) with hgt | hle
  · rw [if_pos hgt]
    simp [Except.map, one_mul, h1, h2]
  · rw [if_neg (not_lt.2 hle)]
    rcases lt_or_le 30 (d.total_search_time + dt) with ht | ht
    · rw [if_pos ht]
      simp [Except.map, finishTick, one_mul, h1, h2]
    · rw [if_neg (not_lt.2 ht)]
      simp [Except.map, finishTick, one_mul, h1, h2]

/-- C3 amended witness: a concrete mid-segment SEARCHING tick. -/
theorem c3_spiral_step_witness :
    (Drone.update geoFlat 1 36 navLive droneFailsafe).map (fun p =>
      decide (droneFailsafe.search_radius ≤ p.1.search_radius) &&
      decide (p.1.search_radius ≤
        max droneFailsafe.search_radius (droneFailsafe.max_search_radius + 1)) &&
      decide (p.1.search_angle = droneFailsafe.search_angle + 60 * 1)) = .ok true :=
  c3_spiral_step geoFlat navLive droneFailsafe 1 36 rfl
    (by norm_num [droneFailsafe, mkDrone]) (by norm_num)

/-- C4 amended: on a SEARCHING tick whose segment is still ongoing
(time-in-search at most 5 s) and whose accumulated search time passes 30 s,
the failsafe installs the single home waypoint as the new route (index 0,
not reached), transitions the drone to RETURN_HOME and zeroes the total
search-time accumulator — but leaves the segment timer `search_start_time`
unchanged. -/
theorem c4_failsafe (geo : Geo) (nav : NavigationSystem) (d : Drone)
    (dt now : ℚ) (hst : d.state = .SEARCHING) (hseg : d.search_start_time ≠ 0)
    (hin : now - d.search_start_time ≤ 5)
    (htot : 30 < d.total_search_time + dt) :
    (Drone.update geo dt now nav d).map (fun p =>
      (p.1.state, p.1.total_search_time, p.1.search_start_time,
       p.2.waypoints, p.2.current_waypoint_idx, p.2.reached_destination)) =
      .ok (.RETURN_HOME, 0, d.search_start_time,
           [{ name := "Home", lat := d.start_pos_lat_lon.1,
              lon := d.start_pos_lat_lon.2 }], 0, false) := by
  simp only [Drone.update, hst, if_neg hseg, Except.map]
  rw [if_neg (not_lt.2 hin), if_pos htot]
  simp [finishTick, NavigationSystem.set_new_route]

/-- C4 amended witness: the concrete failsafe tick at wall time 36. -/
theorem c4_failsafe_witness :
    (Drone.update geoFlat 1 36 navLive droneFailsafe).map (fun p =>
      (p.1.state, p.1.total_search_time, p.1.search_start_time,
       p.2.waypoints, p.2.current_waypoint_idx, p.2.reached_destination)) =
      .ok (.RETURN_HOME, 0, droneFailsafe.search_start_time,
           [{ name := "Home", lat := droneFailsafe.start_pos_lat_lon.1,
              lon := droneFailsafe.start_pos_lat_lon.2 }], 0, false) :=
  c4_failsafe geoFlat navLive droneFailsafe 1 36 rfl
    (by norm_num [droneFailsafe, mkDrone])
    (by norm_num [droneFailsafe, mkDrone])
    (by norm_num [droneFailsafe, mkDrone])

/-- C5 amended: only an index at or past the end of the reference cache is
unconditionally a no-match. A negative index is resolved by Python list
semantics: indices in [-len, -1] wrap to the entry `len + idx` (and are then
processed like any in-range index, returning the no-match only when that
entry has no descriptors), while indices below -len raise IndexError. -/
theorem c5_out_of_range {D : Type} (dist : D → D → ℚ)
    (fs : List (RefFeatures D)) (cam : Option (List D)) (idx : ℤ) :
    ((fs.length : ℤ) ≤ idx → match_waypoint dist fs cam idx = .ok (false, 0)) ∧
    (idx < -(fs.length : ℤ) →
      match_waypoint dist fs cam idx = .error "IndexError") ∧
    (∀ tf : RefFeatures D, idx < (fs.length : ℤ) → pyGet fs idx = some tf →
      tf.des = none → match_waypoint dist fs cam idx = .ok (false, 0)) := by
  refine ⟨?_, ?_, ?_⟩
  · intro h
    simp only [match_waypoint, if_pos h]
  · intro h
    have h0 : ¬((fs.length : ℤ) ≤ idx) := by omega
    have h1 : ¬((0 : ℤ) ≤ idx) := by omega
    have h2 : ¬((0 : ℤ) ≤ (fs.length : ℤ) + idx) := by omega
    simp only [match_waypoint, if_neg h0, pyGet, if_neg h1, if_neg h2]
  · intro tf hlt hget hdes
    simp only [match_waypoint, if_neg (not_le.2 hlt), hget, hdes]

/-- C5 amended witness: a past-the-end index, an index below -len, and an
in-range index whose reference has no descriptors. -/
theorem c5_out_of_range_witness :
    match_waypoint distAbs refCacheOne (some liveDes) 5 = .ok (false, 0) ∧
    match_waypoint distAbs refCacheNoDes (some liveDes) (-3) =
      .error "IndexError" ∧
    match_waypoint distAbs refCacheNoDes (some liveDes) 0 = .ok (false, 0) :=
  ⟨(c5_out_of_range distAbs refCacheOne (some liveDes) 5).1
      (by norm_num [refCacheOne]),
   (c5_out_of_range distAbs refCacheNoDes (some liveDes) (-3)).2.1
      (by norm_num [refCacheNoDes]),
   (c5_out_of_range distAbs refCacheNoDes (some liveDes) 0).2.2
      { kp := 0, des := none } (by norm_num [refCacheNoDes])
      (by simp [pyGet, refCacheNoDes]) rfl⟩

/-- C6 amended: no successful tick raises the battery or makes it negative,
and every tick that is neither the LANDED no-op nor the SEARCHING
segment-completion early return drains exactly drain-rate·dt floored at 0;
the two excepted ticks leave the battery unchanged (so the original
every-tick drain claim fails exactly on the segment-completion tick). -/
theorem c6_battery (geo : Geo) (nav : NavigationSystem) (d : Drone)
    (dt now : ℚ) (hdt : 0 ≤ dt) (hb : 0 ≤ d.battery)
    (hr : 0 ≤ d.battery_drain_rate) :
    (Drone.update geo dt now nav d).map (fun p =>
      decide (p.1.battery ≤ d.battery ∧ 0 ≤ p.1.battery ∧
        (d.state ≠ .LANDED →
         ¬(d.state = .SEARCHING ∧ d.search_start_time ≠ 0 ∧
            5 < now - d.search_start_time) →
         p.1.battery = max 0 (d.battery - d.battery_drain_rate * dt)))) ≠
      .ok false := by
  have hle : max 0 (d.battery - d.battery_drain_rate * dt) ≤ d.battery :=
    max_le hb (by nlinarith)
  have hnn : (0 : ℚ) ≤ max 0 (d.battery - d.battery_drain_rate * dt) :=
    le_max_left _ _
  cases hs : d.state
  case IDLE => simp [Drone.update, hs, Except.map, finishTick, hle, hnn]
  case TAKING_OFF =>
    simp only [Drone.update, hs]
    split <;> simp [Except.map, finishTick, hle, hnn]
  case NAVIGATING =>
    simp only [Drone.update, hs]
    split
    · simp [Except.map, finishTick, hle, hnn]
    · cases hdw : nav.distance_to_wp <;>
        simp [hdw, Except.map, finishTick, hle, hnn]
  case HOVERING =>
    cases hh : d.hover_start_time <;>
      simp [Drone.update, hs, hh, Except.map, finishTick, hle, hnn]
  case SEARCHING =>
    simp only [Drone.update, hs]
    rcases lt_or_le 5
        (now - (if d.search_start_time = 0 then now else d.search_start_time))
      with hgt | hle2
    · rw [if_pos hgt]
      have hz : d.search_start_time ≠ 0 ∧ 5 < now - d.search_start_time := by
        by_cases hz0 : d.search_start_time = 0
        · rw [if_pos hz0, sub_self] at hgt
          norm_num at hgt
        · exact ⟨hz0, by rwa [if_neg hz0] at hgt⟩
      simp [Except.map, hb, hz.1, hz.2]
    · rw [if_neg (not_lt.2 hle2)]
      split <;> simp [Except.map, finishTick, hle, hnn]
  case MATCH_FOUND =>
    cases hm : d.match_found_time
    · simp [Drone.update, hs, hm, Except.map]
    · simp only [Drone.update, hs, hm]
      repeat' split
      all_goals
        simp [Except.map, finishTick, Drone.initiate_landing, apply_ite,
          hle, hnn]
  case RETURN_HOME =>
    simp only [Drone.update, hs]
    split
    · simp [Except.map, finishTick, Drone.initiate_landing, apply_ite, hle, hnn]
    · simp [Except.map, finishTick, hle, hnn]
  case LANDING =>
    simp only [Drone.update, hs]
    split <;> simp [Except.map, finishTick, hle, hnn]
  case LANDED => simp [Drone.update, hs, Except.map, hb]

/-- C6 amended witness: a concrete NAVIGATING tick. -/
theorem c6_battery_witness :
    (Drone.update geoFlat (1/10) 0 navLive droneNavg).map (fun p =>
      decide (p.1.battery ≤ droneNavg.battery ∧ 0 ≤ p.1.battery ∧
        (droneNavg.state ≠ .LANDED →
         ¬(droneNavg.state = .SEARCHING ∧ droneNavg.search_start_time ≠ 0 ∧
            5 < 0 - droneNavg.search_start_time) →
         p.1.battery =
           max 0 (droneNavg.battery -
             droneNavg.battery_drain_rate * (1/10))))) ≠ .ok false :=
  c6_battery geoFlat navLive droneNavg (1/10) 0 (by norm_num)
    (by norm_num [droneNavg, mkDrone]) (by norm_num [droneNavg, mkDrone])

/-- With at least two live descriptors every 2-NN query succeeds, and the
ratio-test filter over the k-NN results counts exactly the reference
descriptors passing Lowe's test. -/
theorem knn_filter_count {D : Type} (dist : D → D → ℚ) (c0 c1 : D)
    (rest : List D) (tdes : List D) :
    (knnMatchAll dist (c0 :: c1 :: rest) tdes).map
        (fun l => (l.filter fun p => decide (p.1 < 7/10 * p.2)).length) =
      .ok (ratioPassCount dist (c0 :: c1 :: rest) tdes) := by
  induction tdes with
  | nil => simp [knnMatchAll, ratioPassCount, Except.map]
  | cons t ts ih =>
      have hknn : knn2 dist (c0 :: c1 :: rest) t =
          .ok (best2core (dist t c0) (dist t c1) (rest.map (dist t))) := rfl
      cases hts : knnMatchAll dist (c0 :: c1 :: rest) ts with
      | error e =>
          rw [hts] at ih
          simp [Except.map] at ih
      | ok l =>
          rw [hts] at ih
          simp only [Except.map, Except.ok.injEq] at ih
          simp [knnMatchAll, hknn, hts, Except.map, Except.bind,
            List.filter_cons, ratioPassCount, best2, List.map_cons, ih]
          split
          · simp only [List.length_cons]
            rw [ih]
            simp [ratioPassCount, best2]
          · rw [ih]
            simp [ratioPassCount, best2]

/-- C7: on the main path of `match_waypoint` (an index resolving to a cached
entry with descriptors, a live image with at least two descriptors, a
nonempty reference keypoint set) a reference descriptor is counted iff its
best live match is strictly below 0.7 times its second-best
(`ratioPassCount`), the returned confidence is that count divided by 100,
and success holds iff the confidence is at least 0.25. -/
theorem c7_ratio_confidence {D : Type} (dist : D → D → ℚ)
    (fs : List (RefFeatures D)) (cdes tdes : List D) (idx : ℤ)
    (tf : RefFeatures D) (hlt : idx < (fs.length : ℤ))
    (hget : pyGet fs idx = some tf) (hdes : tf.des = some tdes)
    (hkp : 0 < tf.kp) (h2 : 2 ≤ cdes.length) :
    match_waypoint dist fs (some cdes) idx =
      .ok (decide ((1/4 : ℚ) ≤ (ratioPassCount dist cdes tdes : ℚ) / 100),
           (ratioPassCount dist cdes tdes : ℚ) / 100) := by
  obtain ⟨c0, c1, rest, rfl⟩ : ∃ c0 c1 rest, cdes = c0 :: c1 :: rest := by
    cases cdes with
    | nil => simp at h2
    | cons c0 t =>
        cases t with
        | nil => simp at h2
        | cons c1 rest => exact ⟨c0, c1, rest, rfl⟩
  simp only [match_waypoint, if_neg (not_le.2 hlt), hget, hdes]
  have hk := knn_filter_count dist c0 c1 rest tdes
  cases hma : knnMatchAll dist (c0 :: c1 :: rest) tdes with
  | error e =>
      rw [hma] at hk
      simp [Except.map] at hk
  | ok l =>
      rw [hma] at hk
      simp only [Except.map, Except.ok.injEq] at hk
      simp [Except.map, if_pos hkp, hk]

/-- C7 witness: the two-descriptor reference against the three-descriptor
live image; both reference descriptors pass the ratio test, so confidence
is 2/100 and success is false. -/
theorem c7_ratio_confidence_witness :
    match_waypoint distAbs refCacheOne (some liveDes) 0 =
      .ok (decide ((1/4 : ℚ) ≤ (ratioPassCount distAbs liveDes [0, 10] : ℚ) / 100),
           (ratioPassCount distAbs liveDes [0, 10] : ℚ) / 100) :=
  c7_ratio_confidence distAbs refCacheOne liveDes [0, 10] 0
    { kp := 3, des := some [0, 10] } (by norm_num [refCacheOne])
    (by simp [pyGet, refCacheOne]) rfl (by norm_num) (by norm_num [liveDes])

/-- A successful update tick never produces the IDLE state from a non-IDLE
state: no branch of `Drone.update` assigns IDLE. -/
theorem update_ok_state_ne_IDLE (geo : Geo) (dt now : ℚ)
    (nav : NavigationSystem) (d d' : Drone) (n' : NavigationSystem)
    (hne : d.state ≠ .IDLE)
    (h : Drone.update geo dt now nav d = .ok (d', n')) : d'.state ≠ .IDLE := by
  cases hs : d.state <;> rw [hs] at hne <;> simp only [Drone.update, hs] at h
  case IDLE => exact absurd rfl hne
  all_goals
    repeat' split at h
  all_goals
    try (exfalso; exact Except.noConfusion h)
  all_goals
    injection h with hp
  all_goals
    injection hp with h1 h2
  all_goals
    rw [← h1]
  all_goals
    simp [finishTick, Drone.initiate_landing, hs]

/-- C10: the IDLE state is unreachable — the drone is constructed in
TAKING_OFF, and update ticks, match confirmation and landing initiation
never produce IDLE. -/
theorem c10_idle_unreachable (d : Drone) (h : ReachableDrone d) :
    d.state ≠ DroneState.IDLE := by
  induction h with
  | init pos alt => simp [mkDrone]
  | step geo dt now nav hr hok ih =>
      exact update_ok_state_ne_IDLE geo dt now nav _ _ _ ih hok
  | confirm now hr ih => simp [Drone.confirm_match]
  | land hr ih =>
      unfold Drone.initiate_landing
      split
      · simp
      · exact ih

/-- C10 witness: the freshly constructed drone is reachable and not IDLE. -/
theorem c10_idle_unreachable_witness :
    (mkDrone (10, 20) 10).state ≠ DroneState.IDLE :=
  c10_idle_unreachable (mkDrone (10, 20) 10) (ReachableDrone.init (10, 20) 10)
